import Mathlib

/-!
Verification development for the keyword/SEO content-analysis engine.

The definitions below are a shallow embedding of the TypeScript source:
  * the deterministic SEO scorer (seo-analyzer: calculateSEOScore and the
    five metric functions, getStatus, generateRecommendations),
  * the API route handlers for keyword suggestions and SEO scores
    (retryWithBackoff, getFallbackKeywords, the POST handlers' pure
    decision structure),
  * the keyword localizer of the TipTap editor (highlightKeywords).

JavaScript strings are modelled as List Char.  JavaScript numbers are
modelled as Rat (scores are natural numbers in the source, weights and
averages are rationals); Math.round x is floor (x + 1/2), which agrees
with JavaScript for all finite inputs.  The one place the source relies
on IEEE infinity (readability of a text with zero sentences, where
words/sentences evaluates to Infinity) is embedded by an explicit case
split that mirrors the comparisons Infinity would satisfy.
-/

/-- Model of the JavaScript regex class \w : ASCII letters, digits, underscore. -/
def isWordChar (c : Char) : Bool := c.isAlphanum || c = ('_')

/-- Model of the JavaScript regex class \s (the source only ever splits on
ASCII whitespace). -/
def isWSChar (c : Char) : Bool := c.isWhitespace

/-- Sentence-terminator class of the source's split(/[.!?]+/). -/
def isSentChar (c : Char) : Bool := c = ('.') || c = ('!') || c = ('?')

/-- Lowercasing of a JS string, char by char (toLowerCase). -/
def toLowerList (s : List Char) : List Char := s.map Char.toLower

/-- One step (processing one character, right to left) of the JS
String.split-on-a-character-class model.  State: current token, finished
tokens to the right, and whether the character to the right was a
separator (so that runs of separators collapse into one split point). -/
def splitStep (sep : Char → Bool) (c : Char) :
    List Char × List (List Char) × Bool → List Char × List (List Char) × Bool :=
  fun st =>
    let tok := st.1
    let toks := st.2.1
    let rightSep := st.2.2
    if sep c then
      if rightSep then (tok, toks, true) else ([], tok :: toks, true)
    else (c :: tok, toks, false)

/-- Model of JS String.split(/X+/) for a character class X: tokens between
maximal separator runs, keeping empty tokens at both string edges.  In
particular the empty string splits into [""], and a separator-only string
splits into ["", ""]. -/
def jsSplitClass (sep : Char → Bool) (s : List Char) : List (List Char) :=
  let st := s.foldr (splitStep sep) ([], [], false)
  st.1 :: st.2.1

/-- wordCount as computed by the scorer: text.split(/\s+/).length. -/
def wordCountJS (text : List Char) : ℕ := (jsSplitClass isWSChar text).length

/-- True when a token survives the scorer's filter s.trim().length > 0. -/
def hasNonWS (s : List Char) : Bool := s.any (fun c => !(isWSChar c))

/-- Sentence list of the scorer: text.split(/[.!?]+/) filtered to segments
with non-whitespace content. -/
def sentencesJS (text : List Char) : List (List Char) :=
  (jsSplitClass isSentChar text).filter hasNonWS

/-- Model of JS String.trim() on a char list. -/
def jsTrim (s : List Char) : List Char :=
  ((s.dropWhile isWSChar).reverse.dropWhile isWSChar).reverse

/-- Model of JS String.includes: substring containment. -/
def strIncludes (s sub : List Char) : Bool :=
  (List.range (s.length + 1)).any (fun j => sub.isPrefixOf (s.drop j))

/-- True when pat occurs in text at index j (pat is a prefix of the suffix
of text starting at j). -/
def matchesAt (text pat : List Char) (j : ℕ) : Bool := pat.isPrefixOf (text.drop j)

/-- Linear search for the first occurrence of pat at an index of text that
is at least j, trying fuel consecutive indices (fuel is a termination
device; the wrapper supplies enough fuel to reach the end of text). -/
def jsIndexOfAux (text pat : List Char) : ℕ → ℕ → Option ℕ
  | 0, _ => none
  | fuel + 1, j => if matchesAt text pat j then some j else jsIndexOfAux text pat fuel (j + 1)

/-- Model of JS String.indexOf(pat, start): first occurrence at an index
no smaller than min start text.length, or none. -/
def jsIndexOfFrom (text pat : List Char) (start : ℕ) : Option ℕ :=
  jsIndexOfAux text pat (text.length + 1 - min start text.length) (min start text.length)

/-- The editor's overlapping occurrence scan: repeatedly indexOf from
searchIndex, emitting every found index and resuming one character past
it (searchIndex = foundIndex + 1).  Fuel bounds the number of loop
iterations; text.length + 1 iterations always suffice for a non-empty
search term. -/
def scanFromF (text pat : List Char) : ℕ → ℕ → List ℕ
  | 0, _ => []
  | fuel + 1, start =>
    match jsIndexOfFrom text pat start with
    | none => []
    | some j => j :: scanFromF text pat fuel (j + 1)

/-- All occurrence indices of pat in text found by the editor's
advance-by-one scan starting at index 0. -/
def scanMatches (text pat : List Char) : List ℕ :=
  scanFromF text pat (text.length + 1) 0

/-- Character of text at index i, with a default d past the end. -/
def charAtD (text : List Char) (i : ℕ) (d : Char) : Char :=
  if h : i < text.length then text.get ⟨i, h⟩ else d

/-- Non-overlapping global occurrence count, as produced by
(textLower.match(new RegExp(keyword, g)) || []).length: after a match at
index j the search resumes at j + pat.length (the source interpolates the
raw keyword into a regex; for keywords free of regex metacharacters this
is exactly non-overlapping substring counting). -/
def countOccFrom (text pat : List Char) : ℕ → ℕ → ℕ
  | 0, _ => 0
  | fuel + 1, start =>
    match jsIndexOfFrom text pat start with
    | none => 0
    | some j => 1 + countOccFrom text pat fuel (j + max pat.length 1)

/-- Number of non-overlapping occurrences of pat in text. -/
def countOccurrences (text pat : List Char) : ℕ :=
  countOccFrom text pat (text.length + 1) 0

/-- Model of JS Math.round: floor (x + 1/2), which is exactly
Math.round's behaviour on every finite number (including the
round-toward-positive-infinity tie rule). -/
def jsRound (q : ℚ) : ℤ := ⌊q + 1 / 2⌋

/-- Model of JS Number.toFixed(1) for the non-negative rationals produced
by the scorer (density values): one decimal digit, ties away from zero. -/
def qToFixed1 (q : ℚ) : String :=
  let n := jsRound (q * 10)
  toString (n / 10) ++ ("." : String) ++ toString (n % 10)

/-- Syllable-counting heuristic countSyllables of the scorer: lowercase;
length at most 3 gives 1; strip one trailing "Xes" (X not in laeiouy) or
"ed" or "Xe" (X not in laeiouy); strip one leading y; count maximal runs
of [aeiouy] greedily in chunks of at most two; zero matches give 1. -/
def isVowelY (c : Char) : Bool :=
  c = ('a') || c = ('e') || c = ('i') || c = ('o') || c = ('u') || c = ('y')

/-- The class [^laeiouy] used by the suffix-stripping regex. -/
def notLVowelY (c : Char) : Bool := !(c = ('l') || isVowelY c)

/-- Strip of the suffix regex (?:[^laeiouy]es|ed|[^laeiouy]e)$ — the
leftmost possible match ends the string, so at most one of the three
alternatives applies, preferring the longer (earlier-starting) "Xes". -/
def stripSuffixJS (w : List Char) : List Char :=
  let r := w.reverse
  match r with
  | s :: e :: x :: rest =>
    if s = ('s') && e = ('e') && notLVowelY x then rest.reverse
    else if s = ('d') && e = ('e') then (x :: rest).reverse
    else if s = ('e') && notLVowelY e then (x :: rest).reverse
    else w
  | s :: e :: [] =>
    if s = ('d') && e = ('e') then []
    else if s = ('e') && notLVowelY e then []
    else w
  | _ => w

/-- Count of matches of /[aeiouy]{1,2}/g: each maximal vowel run of
length L contributes ceil(L / 2) matches. -/
def vowelMatchCount : List Char → ℕ
  | [] => 0
  | c :: rest =>
    if isVowelY c then
      match rest with
      | [] => 1
      | d :: rest2 =>
        if isVowelY d then 1 + vowelMatchCount rest2 else 1 + vowelMatchCount rest2
    else vowelMatchCount rest

/-- countSyllables of the source. -/
def countSyllables (word : List Char) : ℕ :=
  let w := toLowerList word
  if w.length ≤ 3 then 1
  else
    let w1 := stripSuffixJS w
    let w2 := match w1 with
      | c :: rest => if c = ('y') then rest else w1
      | [] => []
    let m := vowelMatchCount w2
    if m = 0 then 1 else m

/-- Block types of the content model (types/content.ts). -/
inductive BlockType where
  | heading
  | subheading
  | paragraph
  | list
  | blockquote
deriving DecidableEq, Repr

/-- ContentBlock of types/content.ts (isEdited/originalContent are never
read by the analysis code and are omitted). -/
structure ContentBlock where
  id : String
  type : BlockType
  content : String
  level : Option ℕ
deriving DecidableEq, Repr

/-- ParsedContent of types/content.ts restricted to the fields the
analysis code reads (author, publishDate, originalUrl and images are
never read by the scorer or the routes). -/
structure ParsedContent where
  title : String
  description : String
  content : List ContentBlock
deriving DecidableEq, Repr

/-- The four status values of types/seo.ts. -/
inductive MetricStatus where
  | excellent
  | good
  | needsImprovement
  | poor
deriving DecidableEq, Repr

/-- SEOMetric of types/seo.ts. -/
structure SEOMetric where
  score : ℕ
  status : MetricStatus
  details : List String
  weight : ℚ
deriving DecidableEq, Repr

/-- SEOBreakdown of types/seo.ts; the field named structure in the source
is called structureMetric here because structure is reserved in Lean. -/
structure SEOBreakdown where
  contentQuality : SEOMetric
  keywordOptimization : SEOMetric
  readability : SEOMetric
  structureMetric : SEOMetric
  metaData : SEOMetric
deriving DecidableEq, Repr

/-- SEOScore of types/seo.ts (the timestamp field is impure and omitted). -/
structure SEOScore where
  overall : ℤ
  breakdown : SEOBreakdown
  recommendations : List String
deriving DecidableEq, Repr

/-- getStatus of the scorer (seo-analyzer). -/
def getStatus (score : ℕ) : MetricStatus :=
  if score ≥ 80 then .excellent
  else if score ≥ 60 then .good
  else if score ≥ 40 then .needsImprovement
  else .poor

/-- Plain text of a document as the scorer derives it:
content.content.map(block => block.content).join(' '). -/
def textOfContent (content : ParsedContent) : List Char :=
  (String.intercalate (" ") (content.content.map (fun b => b.content))).toList

/-- analyzeContentQuality of the scorer.  The source accumulates score
with += inside four independent checks; the accumulated value is embedded
as the sum of the four conditional bonuses, and the pushed detail strings
as a four-element list of conditionals (the second check is a three-way
if/else-if/else). -/
def analyzeContentQuality (text : List Char) (blocks : List ContentBlock) : SEOMetric :=
  let wordCount := wordCountJS text
  let sentences := sentencesJS text
  let c1 := wordCount ≥ 300
  let d1 := if c1 then ("Good content length: " : String) ++ toString wordCount ++ " words"
    else ("Content too short: " : String) ++ toString wordCount ++ " words (recommended: 300+)"
  let paragraphs := blocks.filter (fun b => b.type = BlockType.paragraph)
  let avgParagraphLength : ℚ :=
    if paragraphs.length > 0 then
      ((paragraphs.map (fun p => wordCountJS p.content.toList)).sum : ℚ) / paragraphs.length
    else 0
  let c2 := avgParagraphLength ≤ 150 ∧ avgParagraphLength ≥ 50
  let d2 := if c2 then ("Good paragraph length" : String)
    else if avgParagraphLength > 150 then ("Paragraphs too long (break them up)" : String)
    else ("Paragraphs too short" : String)
  let avgSentenceLength : ℚ :=
    if sentences.length > 0 then (wordCount : ℚ) / sentences.length else 0
  let c3 := avgSentenceLength ≥ 15 ∧ avgSentenceLength ≤ 25
  let d3 := if c3 then ("Good sentence length variety" : String)
    else ("Improve sentence length variety" : String)
  let uniqueWords := (jsSplitClass isWSChar (toLowerList text)).dedup.length
  let c4 := (uniqueWords : ℚ) / wordCount > 0.5
  let d4 := if c4 then ("Good vocabulary variety" : String)
    else ("Increase vocabulary variety" : String)
  let score := (if c1 then 30 else 0) + (if c2 then 25 else 0) +
    (if c3 then 20 else 0) + (if c4 then 25 else 0)
  { score := score, status := getStatus score, details := [d1, d2, d3, d4], weight := 0.25 }

/-- JS falsiness of the optional targetKeyword argument (undefined or the
empty string). -/
def kwFalsy : Option String → Bool
  | none => true
  | some s => s = ""

/-- Keyword density as the scorer computes it:
occurrences / wordCount * 100 (occurrences counted on the lowercased
text, word count on the raw text). -/
def densityJS (text : List Char) (keyword : List Char) : ℚ :=
  (countOccurrences (toLowerList text) keyword : ℚ) / (wordCountJS text) * 100

/-- analyzeKeywordOptimization of the scorer. -/
def analyzeKeywordOptimization (text : List Char) (content : ParsedContent)
    (targetKeyword : Option String) : SEOMetric :=
  if kwFalsy targetKeyword then
    { score := 50, status := .needsImprovement,
      details := ["No target keyword specified"], weight := 0.3 }
  else
    let kw := targetKeyword.getD ("")
    let keyword := toLowerList kw.toList
    let titleLower := toLowerList content.title.toList
    let c1 := strIncludes titleLower keyword = true
    let d1 := if c1 then ("Keyword found in title" : String)
      else ("Add keyword to title" : String)
    let density := densityJS text keyword
    let inRange := density ≥ 1 ∧ density ≤ 3
    let densityBonus := if inRange then 40 else if density > 3 then 20 else 0
    let d2 := if inRange then ("Good keyword density: " : String) ++ qToFixed1 density ++ "%"
      else if density > 3 then
        ("Keyword density too high: " : String) ++ qToFixed1 density ++ "% (reduce to 1-3%)"
      else ("Keyword density too low: " : String) ++ qToFixed1 density ++ "% (aim for 1-3%)"
    let headings := content.content.filter
      (fun b => b.type = BlockType.heading ∨ b.type = BlockType.subheading)
    let c3 := headings.any (fun h => strIncludes (toLowerList h.content.toList) keyword) = true
    let d3 := if c3 then ("Keyword found in headings" : String)
      else ("Add keyword to at least one heading" : String)
    let score := (if c1 then 30 else 0) + densityBonus + (if c3 then 30 else 0)
    { score := score, status := getStatus score, details := [d1, d2, d3], weight := 0.3 }

/-- The fixed transition-word list of analyzeReadability. -/
def transitionWords : List String :=
  ["however", "therefore", "furthermore", "moreover", "consequently", "additionally"]

/-- analyzeReadability of the scorer.  When the sentence count is zero the
source divides by zero in IEEE arithmetic: avgSentenceLength is Infinity
(the word-token count is always at least 1) and the Flesch score is
-Infinity, so neither the Flesch bonus nor the sentence-length bonus is
awarded and Math.round renders -Infinity in the detail string; that case
is embedded as an explicit branch. -/
def analyzeReadability (text : List Char) : SEOMetric :=
  let words := jsSplitClass isWSChar text
  let sentences := sentencesJS text
  let syllables := (words.map countSyllables).sum
  let flesch : ℚ × Bool × Bool :=
    if sentences.length = 0 then (0, false, false)
    else
      let avgSentenceLength : ℚ := (words.length : ℚ) / sentences.length
      let avgSyllablesPerWord : ℚ := (syllables : ℚ) / words.length
      let f : ℚ := 206.835 - 1.015 * avgSentenceLength - 84.6 * avgSyllablesPerWord
      (f, f ≥ 60, avgSentenceLength ≤ 20)
  let c1 := flesch.2.1
  let d1 :=
    if sentences.length = 0 then ("Improve readability: -Infinity (aim for 60+)" : String)
    else if c1 then ("Good readability score: " : String) ++ toString (jsRound flesch.1)
    else ("Improve readability: " : String) ++ toString (jsRound flesch.1) ++ " (aim for 60+)"
  let c2 := flesch.2.2
  let d2 := if c2 then ("Good average sentence length" : String)
    else ("Shorten sentences for better readability" : String)
  let c3 := transitionWords.any (fun w => strIncludes (toLowerList text) w.toList)
  let d3 := if c3 then ("Good use of transition words" : String)
    else ("Add transition words to improve flow" : String)
  let score := (if c1 then 40 else 0) + (if c2 then 30 else 0) + (if c3 then 30 else 0)
  { score := score, status := getStatus score, details := [d1, d2, d3], weight := 0.2 }

/-- analyzeStructure of the scorer (named analyzeStructure in the source). -/
def analyzeStructure (content : ParsedContent) : SEOMetric :=
  let c1 := content.title ≠ ""
  let d1 := if c1 then ("Title present" : String) else ("Add a title" : String)
  let c2 := content.description ≠ ""
  let d2 := if c2 then ("Description present" : String) else ("Add a meta description" : String)
  let headings := content.content.filter
    (fun b => b.type = BlockType.heading ∨ b.type = BlockType.subheading)
  let c3 := headings.length ≥ 2
  let d3 := if c3 then ("Good heading structure: " : String) ++ toString headings.length ++ " headings"
    else ("Add more headings to structure content" : String)
  let paragraphs := content.content.filter (fun b => b.type = BlockType.paragraph)
  let c4 := paragraphs.length ≥ 3
  let d4 := if c4 then ("Good content organization" : String)
    else ("Break content into more paragraphs" : String)
  let score := (if c1 then 20 else 0) + (if c2 then 20 else 0) +
    (if c3 then 30 else 0) + (if c4 then 30 else 0)
  { score := score, status := getStatus score, details := [d1, d2, d3, d4], weight := 0.15 }

/-- analyzeMetaData of the scorer.  String lengths are code-unit counts in
JS; the model counts characters, which agrees on the ASCII content the
analysis targets. -/
def analyzeMetaData (content : ParsedContent) : SEOMetric :=
  let tl := content.title.length
  let c1 := tl ≥ 30 ∧ tl ≤ 60
  let d1 := if c1 then ("Good title length: " : String) ++ toString tl ++ " characters"
    else if tl > 60 then ("Title too long: " : String) ++ toString tl ++ " chars (max 60)"
    else ("Title too short: " : String) ++ toString tl ++ " chars (min 30)"
  let dl := content.description.length
  let present := content.description ≠ ""
  let c2 := present ∧ dl ≥ 120 ∧ dl ≤ 160
  let d2 := if c2 then ("Good description length: " : String) ++ toString dl ++ " characters"
    else if present ∧ dl > 160 then
      ("Description too long: " : String) ++ toString dl ++ " chars (max 160)"
    else if present then ("Description too short: " : String) ++ toString dl ++ " chars (min 120)"
    else ("Add a meta description" : String)
  let score := (if c1 then 50 else 0) + (if c2 then 50 else 0)
  { score := score, status := getStatus score, details := [d1, d2], weight := 0.1 }

/-- The five metrics in the iteration order of Object.entries on the
breakdown literal: contentQuality, keywordOptimization, readability,
structure, metaData. -/
def breakdownEntries (b : SEOBreakdown) : List SEOMetric :=
  [b.contentQuality, b.keywordOptimization, b.readability, b.structureMetric, b.metaData]

/-- Model of detail.includes(":"): the detail string contains a colon. -/
def hasColon (d : String) : Bool := d.toList.any (fun c => c = (':'))

/-- generateRecommendations of the scorer: for each failing metric (poor
or needs-improvement), append its detail strings that contain no colon;
then keep the first 5. -/
def generateRecommendations (b : SEOBreakdown) : List String :=
  ((breakdownEntries b).foldl
    (fun acc m =>
      if m.status = MetricStatus.poor ∨ m.status = MetricStatus.needsImprovement then
        acc ++ m.details.filter (fun d => !(hasColon d))
      else acc)
    []).take 5

/-- calculateSEOScore of the scorer. -/
def calculateSEOScore (content : ParsedContent) (targetKeyword : Option String) : SEOScore :=
  let text := textOfContent content
  let contentQuality := analyzeContentQuality text content.content
  let keywordOptimization := analyzeKeywordOptimization text content targetKeyword
  let readability := analyzeReadability text
  let structureMetric := analyzeStructure content
  let metaData := analyzeMetaData content
  let breakdown : SEOBreakdown :=
    ⟨contentQuality, keywordOptimization, readability, structureMetric, metaData⟩
  let overall := jsRound
    (((contentQuality.score : ℚ) * contentQuality.weight +
      (keywordOptimization.score : ℚ) * keywordOptimization.weight +
      (readability.score : ℚ) * readability.weight +
      (structureMetric.score : ℚ) * structureMetric.weight +
      (metaData.score : ℚ) * metaData.weight) /
     (contentQuality.weight + keywordOptimization.weight + readability.weight +
      structureMetric.weight + metaData.weight))
  { overall := overall, breakdown := breakdown,
    recommendations := generateRecommendations breakdown }

/-- The error shape the route code inspects: an optional numeric status
and an optional message. -/
structure JsError where
  status : Option ℤ
  message : Option String
deriving DecidableEq, Repr

/-- isRateLimitError of retryWithBackoff: status 503, or a message
containing "overloaded" or "503". -/
def isRateLimitError (e : JsError) : Bool :=
  decide (e.status = some 503) ||
  (match e.message with
   | some m => strIncludes m.toList (("overloaded" : String)).toList
   | none => false) ||
  (match e.message with
   | some m => strIncludes m.toList (("503" : String)).toList
   | none => false)

/-- Observable outcome of one run of retryWithBackoff: the surfaced
result, the number of calls made to the wrapped function, and the backoff
delays slept (in milliseconds) between consecutive calls. -/
structure RetryResult (α : Type) where
  result : Except JsError α
  attemptsMade : ℕ
  delays : List ℚ

/-- The retry loop of retryWithBackoff, indexed by the remaining loop
iterations (remaining = maxRetries - i, so the loop guard i < maxRetries
is remaining > 0).  attempts i is the outcome of the (i+1)-th call of the
wrapped function; jitter i models the Math.random() * 1000 summand of the
delay after attempt i. -/
def retryRunAux {α : Type} (attempts : ℕ → Except JsError α) (jitter : ℕ → ℚ)
    (baseDelay : ℚ) (maxRetries : ℕ) : ℕ → ℕ → RetryResult α
  | 0, _ => ⟨.error ⟨none, some ("Max retries exceeded")⟩, 0, []⟩
  | remaining + 1, i =>
    match attempts i with
    | .ok v => ⟨.ok v, 1, []⟩
    | .error e =>
      if isRateLimitError e = false ∨ i = maxRetries - 1 then ⟨.error e, 1, []⟩
      else
        let d := baseDelay * 2 ^ i + jitter i
        let r := retryRunAux attempts jitter baseDelay maxRetries remaining (i + 1)
        ⟨r.result, r.attemptsMade + 1, d :: r.delays⟩

/-- retryWithBackoff of the routes (both route files define the identical
function): up to maxRetries attempts starting at attempt index 0. -/
def retryWithBackoff {α : Type} (attempts : ℕ → Except JsError α) (jitter : ℕ → ℚ)
    (maxRetries : ℕ) (baseDelay : ℚ) : RetryResult α :=
  retryRunAux attempts jitter baseDelay maxRetries maxRetries 0

/-- One entry of the fixed weak-word table of getFallbackKeywords. -/
structure WeakWord where
  word : String
  reason : String
  suggestions : List String
deriving DecidableEq, Repr

/-- The fixed 15-entry weak-word table of getFallbackKeywords. -/
def weakWordsTable : List WeakWord :=
  [⟨"good", "Generic adjective", ["excellent", "outstanding", "superior"]⟩,
   ⟨"great", "Overused positive adjective", ["exceptional", "remarkable", "impressive"]⟩,
   ⟨"nice", "Weak descriptor", ["appealing", "attractive", "elegant"]⟩,
   ⟨"amazing", "Overused superlative", ["extraordinary", "remarkable", "innovative"]⟩,
   ⟨"awesome", "Informal superlative", ["impressive", "outstanding", "exceptional"]⟩,
   ⟨"very", "Weak intensifier", ["extremely", "significantly", "considerably"]⟩,
   ⟨"really", "Informal intensifier", ["genuinely", "truly", "notably"]⟩,
   ⟨"quite", "Vague qualifier", ["notably", "considerably", "substantially"]⟩,
   ⟨"stuff", "Vague noun", ["materials", "components", "elements"]⟩,
   ⟨"things", "Non-specific noun", ["elements", "components", "aspects"]⟩,
   ⟨"easy", "Generic adjective", ["straightforward", "intuitive", "streamlined"]⟩,
   ⟨"simple", "Basic descriptor", ["streamlined", "elegant", "refined"]⟩,
   ⟨"big", "Generic size descriptor", ["substantial", "comprehensive", "extensive"]⟩,
   ⟨"small", "Basic size descriptor", ["compact", "concise", "focused"]⟩,
   ⟨"fast", "Generic speed descriptor", ["rapid", "efficient", "streamlined"]⟩]

/-- Test of the whole-word regex new RegExp("\\b" + w + "\\b", "gi") on a
lowercased text: w occurs at some index with no word character directly
before or after the occurrence.  (The table words consist of word
characters only, so \b is exactly this boundary condition.) -/
def wholeWordIn (text w : List Char) : Bool :=
  (List.range (text.length + 1)).any (fun j =>
    w.isPrefixOf (text.drop j)
    && (decide (j = 0) || !(isWordChar (charAtD text (j - 1) (' '))))
    && (decide (text.length ≤ j + w.length) || !(isWordChar (charAtD text (j + w.length) (' ')))))

/-- getFallbackKeywords of the keyword route: walk the fixed table in
order, keeping entries whose word occurs whole-word in the lowercased
content, while fewer than 10 entries have been kept. -/
def getFallbackKeywords (content : String) : List WeakWord :=
  let contentLower := toLowerList content.toList
  weakWordsTable.foldl
    (fun acc w =>
      if wholeWordIn contentLower w.word.toList && decide (acc.length < 10) then acc ++ [w]
      else acc)
    []

/-- Global replacement of the regex /```json\s*|\s*```/g by the empty
string, scanned left to right: at each position first try "```json"
followed by greedily consumed whitespace, then a greedy whitespace run
followed by "```"; otherwise keep the character.  Fuel bounds the
recursion depth (the input length suffices since every step consumes at
least one character). -/
def replaceFencesF : ℕ → List Char → List Char
  | 0, s => s
  | fuel + 1, s =>
    if (("```json" : String)).toList.isPrefixOf s then
      replaceFencesF fuel ((s.drop 7).dropWhile isWSChar)
    else
      let ws := s.takeWhile isWSChar
      let after := s.drop ws.length
      if (("```" : String)).toList.isPrefixOf after then replaceFencesF fuel (after.drop 3)
      else
        match s with
        | [] => []
        | c :: rest => c :: replaceFencesF fuel rest

/-- result.replace(/```json\s*|\s*```/g, '').trim() of both routes. -/
def stripFences (s : String) : String :=
  ⟨jsTrim (replaceFencesF (s.toList.length + 1) s.toList)⟩

/-- Responses of the seo-keywords POST route that matter to the analysis:
a 400 validation error, or a 200 payload with keywords, an optional
fallback flag and an optional message.  (The outer 500 handler is
unreachable once the body has been read.) -/
inductive KeywordResponse where
  | badRequest (error : String)
  | ok (keywords : List WeakWord) (fallback : Bool) (message : Option String)
deriving DecidableEq, Repr

/-- Pure decision structure of the seo-keywords POST handler, given the
extracted content text (none when the content field is absent), the
surfaced outcome of the retried remote call, and the JSON parser for the
cleaned response. -/
def seoKeywordsPOST (content : Option String) (aiOutcome : Except JsError String)
    (jsonParse : String → Option (List WeakWord)) : KeywordResponse :=
  match content with
  | none => .badRequest ("Content is required")
  | some contentText =>
    if contentText = "" then .badRequest ("Content is required")
    else if contentText.length > 10000 then
      .badRequest ("Content too long. Please reduce to under 10,000 characters.")
    else
      match aiOutcome with
      | .error _ =>
        .ok (getFallbackKeywords contentText) true
          (some ("AI service temporarily unavailable. Using basic keyword detection."))
      | .ok result =>
        match jsonParse (stripFences result) with
        | none =>
          .ok (getFallbackKeywords contentText) true
            (some ("AI service temporarily unavailable. Using basic keyword detection."))
        | some keywords => .ok keywords false none

/-- The fallback score object of the seo-score route: the deterministic
score with the previousScore and improvement fields the handler attaches
before responding. -/
structure SEOScoreExt where
  base : SEOScore
  previousScore : ℤ
  improvement : String
deriving DecidableEq

/-- Rendering of the improvement difference in the fallback path:
"+{d} points better" when positive, "{d} points worse" when negative,
"No change" when zero. -/
def renderImprovement (d : ℤ) : String :=
  if d > 0 then ("+" : String) ++ toString d ++ " points better"
  else if d < 0 then toString d ++ (" points worse" : String)
  else ("No change" : String)

/-- The fallback branch of the seo-score POST handler: compute the
deterministic score; if a truthy (non-zero) previousScore was supplied,
attach it and the rendered improvement; otherwise attach previousScore 0
and improvement "First analysis". -/
def fallbackScorePayload (parsedContent : ParsedContent) (targetKeyword : Option String)
    (previousScore : Option ℤ) : SEOScoreExt :=
  let seoScore := calculateSEOScore parsedContent targetKeyword
  match previousScore with
  | some p =>
    if p ≠ 0 then ⟨seoScore, p, renderImprovement (seoScore.overall - p)⟩
    else ⟨seoScore, 0, ("First analysis" : String)⟩
  | none => ⟨seoScore, 0, ("First analysis" : String)⟩

/-- Responses of the seo-score POST route: a 400 validation error, a 200
AI payload tagged source "ai", or a 200 fallback payload tagged source
"fallback" with its explanatory message. -/
inductive ScoreResponse (α : Type) where
  | badRequest (error : String)
  | aiResult (score : α)
  | fallbackResult (score : SEOScoreExt) (message : String)
deriving DecidableEq

/-- Pure decision structure of the seo-score POST handler.  α is the
shape of the parsed AI response (the handler forwards it untouched apart
from the timestamp). -/
def seoScorePOST {α : Type} (content : Option ParsedContent) (targetKeyword : Option String)
    (previousScore : Option ℤ) (aiOutcome : Except JsError String)
    (jsonParse : String → Option α) : ScoreResponse α :=
  match content with
  | none => .badRequest ("Content is required and must be an object")
  | some parsedContent =>
    if parsedContent.title = "" then .badRequest ("Invalid content structure")
    else
      match aiOutcome with
      | .ok result =>
        match jsonParse (stripFences result) with
        | some aiScore => .aiResult aiScore
        | none =>
          .fallbackResult (fallbackScorePayload parsedContent targetKeyword previousScore)
            ("AI analysis temporarily unavailable. Using basic SEO scoring.")
      | .error _ =>
        .fallbackResult (fallbackScorePayload parsedContent targetKeyword previousScore)
          ("AI analysis temporarily unavailable. Using basic SEO scoring.")

/-- The whole-word boundary test of highlightKeywords in the editor: the
character before the match (a virtual space at index 0) and the character
after it (a virtual space at the node edge) must both be non-word. -/
def boundaryOk (text pat : List Char) (j : ℕ) : Bool :=
  let beforeChar := if j > 0 then charAtD text (j - 1) (' ') else (' ')
  let afterChar := if j + pat.length < text.length then charAtD text (j + pat.length) (' ') else (' ')
  !(isWordChar beforeChar) && !(isWordChar afterChar)

/-- Local match indices highlightKeywords emits for one text node: every
index found by the advance-by-one scan that passes the whole-word
boundary test. -/
def highlightMatches (text pat : List Char) : List ℕ :=
  (scanMatches text pat).filter (boundaryOk text pat)

/-- searchTerm of highlightKeywords: keywordData.word.toLowerCase().trim(). -/
def searchTermOf (keyword : String) : List Char := jsTrim (toLowerList keyword.toList)

/-- Local match indices for a node's text and a keyword, lowercasing the
node text as highlightKeywords does. -/
def highlightKeywordNode (nodeText keyword : String) : List ℕ :=
  highlightMatches (toLowerList nodeText.toList) (searchTermOf keyword)

/-- The (from, to) ranges highlightKeywords computes for one text node at
base position pos, before the validity guard. -/
def candidateRanges (pos : ℤ) (nodeText keyword : String) : List (ℤ × ℤ) :=
  (highlightKeywordNode nodeText keyword).map
    (fun j => ((pos + j : ℤ), pos + j + (searchTermOf keyword).length))

/-- The ranges highlightKeywords actually marks: candidates passing the
guard from >= 0 && to <= doc.content.size && from < to; every other
computed range is dropped without any error. -/
def appliedRanges (docSize pos : ℤ) (nodeText keyword : String) : List (ℤ × ℤ) :=
  (candidateRanges pos nodeText keyword).filter
    (fun r => decide (0 ≤ r.1) && decide (r.2 ≤ docSize) && decide (r.1 < r.2))

/-! Helper lemmas: each metric's status field is getStatus of its score
field, directly from the record literals of the five metric functions. -/

lemma analyzeContentQuality_status (text : List Char) (blocks : List ContentBlock) :
    (analyzeContentQuality text blocks).status
      = getStatus (analyzeContentQuality text blocks).score := rfl

lemma analyzeKeywordOptimization_status (text : List Char) (content : ParsedContent)
    (kw : Option String) :
    (analyzeKeywordOptimization text content kw).status
      = getStatus (analyzeKeywordOptimization text content kw).score := by
  cases hk : kwFalsy kw <;> simp only [analyzeKeywordOptimization, hk] <;> rfl

lemma analyzeReadability_status (text : List Char) :
    (analyzeReadability text).status = getStatus (analyzeReadability text).score := rfl

lemma analyzeStructure_status (content : ParsedContent) :
    (analyzeStructure content).status = getStatus (analyzeStructure content).score := rfl

lemma analyzeMetaData_status (content : ParsedContent) :
    (analyzeMetaData content).status = getStatus (analyzeMetaData content).score := rfl

/-- Score of the keyword metric for a truthy keyword, written with its
three summands exposed. -/
lemma kwOptScore (text : List Char) (content : ParsedContent) (kw : String) (h : ¬ kw = "") :
    (analyzeKeywordOptimization text content (some kw)).score =
      (if strIncludes (toLowerList content.title.toList) (toLowerList kw.toList) = true then 30
        else 0) +
      ((if densityJS text (toLowerList kw.toList) ≥ 1 ∧ densityJS text (toLowerList kw.toList) ≤ 3
          then 40
        else if densityJS text (toLowerList kw.toList) > 3 then 20 else 0) +
       (if (content.content.filter
              (fun b => b.type = BlockType.heading ∨ b.type = BlockType.subheading)).any
            (fun b => strIncludes (toLowerList b.content.toList) (toLowerList kw.toList)) = true
          then 30 else 0)) := by
  have hk : kwFalsy (some kw) = false := by simp [kwFalsy, h]
  simp only [analyzeKeywordOptimization, hk, Bool.false_eq_true, if_false, Option.getD]
  ring

/-- Claim C1 (counterexample): the status thresholds of the code are not
the claimed 90/70/50 bands.  getStatus maps 89 to excellent (the claim
says good), 69 to good (the claim says needs-improvement) and 49 to
needs-improvement (the claim says poor); and a concrete document whose
keyword metric scores 80 (keyword in title and in a heading, density
100% > 3%) is produced with status excellent where the claimed bands
would give good. -/
theorem getStatus_claimed_thresholds_counterexample :
    getStatus 89 = MetricStatus.excellent ∧
    getStatus 69 = MetricStatus.good ∧
    getStatus 49 = MetricStatus.needsImprovement ∧
    (analyzeKeywordOptimization (("fox fox" : String)).toList
        ⟨"fox", "", [⟨"1", BlockType.heading, "fox", none⟩,
          ⟨"2", BlockType.paragraph, "fox", none⟩]⟩ (some ("fox"))).score = 80 ∧
    (analyzeKeywordOptimization (("fox fox" : String)).toList
        ⟨"fox", "", [⟨"1", BlockType.heading, "fox", none⟩,
          ⟨"2", BlockType.paragraph, "fox", none⟩]⟩ (some ("fox"))).status
      = MetricStatus.excellent := by
  have hscore : (analyzeKeywordOptimization (("fox fox" : String)).toList
      ⟨"fox", "", [⟨"1", BlockType.heading, "fox", none⟩,
        ⟨"2", BlockType.paragraph, "fox", none⟩]⟩ (some ("fox"))).score = 80 := by
    rw [kwOptScore _ _ _ (by decide)]
    have hocc : countOccurrences (toLowerList (("fox fox" : String)).toList)
        (toLowerList (("fox" : String)).toList) = 2 := by decide
    have hwc : wordCountJS (("fox fox" : String)).toList = 2 := by decide
    have hd : densityJS (("fox fox" : String)).toList (toLowerList (("fox" : String)).toList)
        = 100 := by
      simp only [densityJS, hocc, hwc]
      norm_num
    have h1 : strIncludes (toLowerList (("fox" : String)).toList)
        (toLowerList (("fox" : String)).toList) = true := by decide
    have h2 : ([(⟨"1", BlockType.heading, "fox", none⟩ : ContentBlock),
        ⟨"2", BlockType.paragraph, "fox", none⟩].filter
          (fun b => b.type = BlockType.heading ∨ b.type = BlockType.subheading)).any
        (fun b => strIncludes (toLowerList b.content.toList)
          (toLowerList (("fox" : String)).toList)) = true := by decide
    dsimp only
    rw [hd, h1, h2]
    norm_num
  refine ⟨by decide, by decide, by decide, hscore, ?_⟩
  rw [analyzeKeywordOptimization_status, hscore]
  decide

/-- Claim C1 (amended): for every SEOMetric produced by any of the five
metric functions, the status field is the pure threshold function
getStatus of the score, whose actual bands are: score >= 80 excellent,
60..79 good, 40..59 needs-improvement, <= 39 poor; at the boundaries,
80 gives excellent, 79 gives good, 60 gives good, 59 gives
needs-improvement, 40 gives needs-improvement and 39 gives poor. -/
theorem metric_status_pure_of_score :
    (∀ text blocks, (analyzeContentQuality text blocks).status
      = getStatus (analyzeContentQuality text blocks).score) ∧
    (∀ text content kw, (analyzeKeywordOptimization text content kw).status
      = getStatus (analyzeKeywordOptimization text content kw).score) ∧
    (∀ text, (analyzeReadability text).status = getStatus (analyzeReadability text).score) ∧
    (∀ content, (analyzeStructure content).status = getStatus (analyzeStructure content).score) ∧
    (∀ content, (analyzeMetaData content).status = getStatus (analyzeMetaData content).score) ∧
    getStatus 80 = MetricStatus.excellent ∧ getStatus 79 = MetricStatus.good ∧
    getStatus 60 = MetricStatus.good ∧ getStatus 59 = MetricStatus.needsImprovement ∧
    getStatus 40 = MetricStatus.needsImprovement ∧ getStatus 39 = MetricStatus.poor :=
  ⟨analyzeContentQuality_status, analyzeKeywordOptimization_status, analyzeReadability_status,
    analyzeStructure_status, analyzeMetaData_status,
    by decide, by decide, by decide, by decide, by decide, by decide⟩

/-! Helper lemmas for the overall score: fixed weights and score bounds. -/

lemma analyzeContentQuality_weight (text : List Char) (blocks : List ContentBlock) :
    (analyzeContentQuality text blocks).weight = 0.25 := rfl

lemma analyzeKeywordOptimization_weight (text : List Char) (content : ParsedContent)
    (kw : Option String) : (analyzeKeywordOptimization text content kw).weight = 0.3 := by
  cases hk : kwFalsy kw <;> simp only [analyzeKeywordOptimization, hk] <;> rfl

lemma analyzeReadability_weight (text : List Char) : (analyzeReadability text).weight = 0.2 := rfl

lemma analyzeStructure_weight (content : ParsedContent) :
    (analyzeStructure content).weight = 0.15 := rfl

lemma analyzeMetaData_weight (content : ParsedContent) :
    (analyzeMetaData content).weight = 0.1 := rfl

lemma analyzeContentQuality_score_le (text : List Char) (blocks : List ContentBlock) :
    (analyzeContentQuality text blocks).score ≤ 100 := by
  simp only [analyzeContentQuality]
  split_ifs <;> norm_num

lemma analyzeKeywordOptimization_score_le (text : List Char) (content : ParsedContent)
    (kw : Option String) : (analyzeKeywordOptimization text content kw).score ≤ 100 := by
  cases hk : kwFalsy kw <;> simp only [analyzeKeywordOptimization, hk]
  · split_ifs <;> norm_num
  · norm_num

lemma analyzeReadability_score_le (text : List Char) :
    (analyzeReadability text).score ≤ 100 := by
  simp only [analyzeReadability]
  split_ifs <;> norm_num

lemma analyzeStructure_score_le (content : ParsedContent) :
    (analyzeStructure content).score ≤ 100 := by
  simp only [analyzeStructure]
  split_ifs <;> norm_num

lemma analyzeMetaData_score_le (content : ParsedContent) :
    (analyzeMetaData content).score ≤ 100 := by
  simp only [analyzeMetaData]
  split_ifs <;> norm_num

lemma jsRound_nonneg {q : ℚ} (h : 0 ≤ q) : 0 ≤ jsRound q := by
  unfold jsRound
  apply Int.le_floor.mpr
  push_cast
  linarith

lemma jsRound_le_100 {q : ℚ} (h : q ≤ 100) : jsRound q ≤ 100 := by
  unfold jsRound
  have h2 : ⌊q + 1 / 2⌋ < 101 := Int.floor_lt.mpr (by push_cast; linarith)
  omega

/-- Claim C2: for every document and optional target keyword, the
deterministic scorer's overall equals Math.round of the sum of
score times weight over the five breakdown metrics divided by the
computed sum of the five weights (the divisor is the actual weight-field
sum, not an assumed 1.0), and overall is an integer in [0, 100] for every
input including the empty document. -/
theorem overall_weighted_round_bounded (content : ParsedContent) (targetKeyword : Option String) :
    (calculateSEOScore content targetKeyword).overall =
      jsRound
        ((((calculateSEOScore content targetKeyword).breakdown.contentQuality.score : ℚ) *
            (calculateSEOScore content targetKeyword).breakdown.contentQuality.weight +
          ((calculateSEOScore content targetKeyword).breakdown.keywordOptimization.score : ℚ) *
            (calculateSEOScore content targetKeyword).breakdown.keywordOptimization.weight +
          ((calculateSEOScore content targetKeyword).breakdown.readability.score : ℚ) *
            (calculateSEOScore content targetKeyword).breakdown.readability.weight +
          ((calculateSEOScore content targetKeyword).breakdown.structureMetric.score : ℚ) *
            (calculateSEOScore content targetKeyword).breakdown.structureMetric.weight +
          ((calculateSEOScore content targetKeyword).breakdown.metaData.score : ℚ) *
            (calculateSEOScore content targetKeyword).breakdown.metaData.weight) /
         ((calculateSEOScore content targetKeyword).breakdown.contentQuality.weight +
          (calculateSEOScore content targetKeyword).breakdown.keywordOptimization.weight +
          (calculateSEOScore content targetKeyword).breakdown.readability.weight +
          (calculateSEOScore content targetKeyword).breakdown.structureMetric.weight +
          (calculateSEOScore content targetKeyword).breakdown.metaData.weight)) ∧
    0 ≤ (calculateSEOScore content targetKeyword).overall ∧
    (calculateSEOScore content targetKeyword).overall ≤ 100 := by
  refine ⟨rfl, ?_, ?_⟩ <;>
  · have hov : (calculateSEOScore content targetKeyword).overall =
        jsRound ((((analyzeContentQuality (textOfContent content) content.content).score : ℚ) * 0.25 +
          ((analyzeKeywordOptimization (textOfContent content) content targetKeyword).score : ℚ) * 0.3 +
          ((analyzeReadability (textOfContent content)).score : ℚ) * 0.2 +
          ((analyzeStructure content).score : ℚ) * 0.15 +
          ((analyzeMetaData content).score : ℚ) * 0.1) /
         ((0.25 : ℚ) + 0.3 + 0.2 + 0.15 + 0.1)) := by
      simp only [calculateSEOScore, analyzeContentQuality_weight, analyzeKeywordOptimization_weight,
        analyzeReadability_weight, analyzeStructure_weight, analyzeMetaData_weight]
    have h1 : ((analyzeContentQuality (textOfContent content) content.content).score : ℚ) ≤ 100 := by
      exact_mod_cast analyzeContentQuality_score_le (textOfContent content) content.content
    have h2 : ((analyzeKeywordOptimization (textOfContent content) content targetKeyword).score : ℚ) ≤ 100 := by
      exact_mod_cast analyzeKeywordOptimization_score_le (textOfContent content) content targetKeyword
    have h3 : ((analyzeReadability (textOfContent content)).score : ℚ) ≤ 100 := by
      exact_mod_cast analyzeReadability_score_le (textOfContent content)
    have h4 : ((analyzeStructure content).score : ℚ) ≤ 100 := by
      exact_mod_cast analyzeStructure_score_le content
    have h5 : ((analyzeMetaData content).score : ℚ) ≤ 100 := by
      exact_mod_cast analyzeMetaData_score_le content
    have p1 : (0 : ℚ) ≤ ((analyzeContentQuality (textOfContent content) content.content).score : ℚ) := by
      positivity
    have p2 : (0 : ℚ) ≤ ((analyzeKeywordOptimization (textOfContent content) content targetKeyword).score : ℚ) := by
      positivity
    have p3 : (0 : ℚ) ≤ ((analyzeReadability (textOfContent content)).score : ℚ) := by positivity
    have p4 : (0 : ℚ) ≤ ((analyzeStructure content).score : ℚ) := by positivity
    have p5 : (0 : ℚ) ≤ ((analyzeMetaData content).score : ℚ) := by positivity
    rw [hov]
    first
    | exact jsRound_nonneg
        (by rw [show ((0.25 : ℚ) + 0.3 + 0.2 + 0.15 + 0.1) = 1 by norm_num, div_one]; linarith)
    | exact jsRound_le_100
        (by rw [show ((0.25 : ℚ) + 0.3 + 0.2 + 0.15 + 0.1) = 1 by norm_num, div_one]; linarith)

/-- Claim C3: under the retry policy (maxRetries 3, baseDelay 1000ms, with
jitter i the Math.random()*1000 summand drawn before the retry after
failed attempt i), every run makes between 1 and 3 attempts; the delays
slept are exactly 1000 * 2 ^ i + jitter i for i = 0 .. attemptsMade - 2;
an attempt is followed by another only when it failed with a rate-limit
error (status 503 or message containing "overloaded" or "503"); the
surfaced result is the outcome of the last attempt made; a non-overload
failure of the first attempt yields exactly one attempt (zero retries)
surfacing that error; and with jitter in [0, 1000) the i-th delay lies in
[1000 * 2 ^ i, 1000 * 2 ^ i + 1000). -/
theorem retryWithBackoff_policy {α : Type} (attempts : ℕ → Except JsError α) (jitter : ℕ → ℚ)
    (hj : ∀ i, 0 ≤ jitter i ∧ jitter i < 1000) :
    1 ≤ (retryWithBackoff attempts jitter 3 1000).attemptsMade ∧
    (retryWithBackoff attempts jitter 3 1000).attemptsMade ≤ 3 ∧
    (retryWithBackoff attempts jitter 3 1000).delays =
      (List.range ((retryWithBackoff attempts jitter 3 1000).attemptsMade - 1)).map
        (fun i => 1000 * 2 ^ i + jitter i) ∧
    (∀ i, i + 1 < (retryWithBackoff attempts jitter 3 1000).attemptsMade →
      ∃ e, attempts i = Except.error e ∧ isRateLimitError e = true) ∧
    (retryWithBackoff attempts jitter 3 1000).result =
      attempts ((retryWithBackoff attempts jitter 3 1000).attemptsMade - 1) ∧
    (∀ e, attempts 0 = Except.error e → isRateLimitError e = false →
      (retryWithBackoff attempts jitter 3 1000).result = Except.error e ∧
      (retryWithBackoff attempts jitter 3 1000).attemptsMade = 1) ∧
    (∀ i d, (retryWithBackoff attempts jitter 3 1000).delays.get? i = some d →
      1000 * 2 ^ i ≤ d ∧ d < 1000 * 2 ^ i + 1000) := by
  have hd0 := hj 0
  have hd1 := hj 1
  rcases h0 : attempts 0 with e0 | v0
  case _ =>
    cases hr0 : isRateLimitError e0
    case false =>
      have hR : retryWithBackoff attempts jitter 3 1000 = ⟨Except.error e0, 1, []⟩ := by
        simp [retryWithBackoff, retryRunAux, h0, hr0]
      rw [hR]
      dsimp only
      refine ⟨by norm_num, by norm_num, by simp, by intro i hi; omega, by simp [h0], ?_, by simp⟩
      intro e he _
      rw [Except.error.injEq] at he
      subst he
      exact ⟨rfl, rfl⟩
    case true =>
      rcases h1 : attempts 1 with e1 | v1
      case _ =>
        cases hr1 : isRateLimitError e1
        case false =>
          have hR : retryWithBackoff attempts jitter 3 1000
              = ⟨Except.error e1, 2, [1000 * 2 ^ (0 : ℕ) + jitter 0]⟩ := by
            simp [retryWithBackoff, retryRunAux, h0, hr0, h1, hr1]
          rw [hR]
          dsimp only
          refine ⟨by norm_num, by norm_num, by simp [List.range_succ], ?_, by simp [h1], ?_, ?_⟩
          · intro i hi
            have hiz : i = 0 := by omega
            subst hiz
            exact ⟨e0, h0, hr0⟩
          · intro e he hc
            rw [Except.error.injEq] at he
            subst he
            rw [hr0] at hc
            cases hc
          · intro i d hd
            cases i with
            | zero =>
              simp at hd
              subst hd
              exact ⟨by linarith [hd0.1], by linarith [hd0.2]⟩
            | succ n => simp at hd
        case true =>
          rcases h2 : attempts 2 with e2 | v2
          case _ =>
            have hR : retryWithBackoff attempts jitter 3 1000
                = ⟨Except.error e2, 3,
                    [1000 * 2 ^ (0 : ℕ) + jitter 0, 1000 * 2 ^ (1 : ℕ) + jitter 1]⟩ := by
              simp [retryWithBackoff, retryRunAux, h0, hr0, h1, hr1, h2]
            rw [hR]
            dsimp only
            refine ⟨by norm_num, by norm_num, by simp [List.range_succ], ?_, by simp [h2], ?_, ?_⟩
            · intro i hi
              have hior : i = 0 ∨ i = 1 := by omega
              rcases hior with h | h <;> subst h
              · exact ⟨e0, h0, hr0⟩
              · exact ⟨e1, h1, hr1⟩
            · intro e he hc
              rw [Except.error.injEq] at he
              subst he
              rw [hr0] at hc
              cases hc
            · intro i d hd
              cases i with
              | zero =>
                simp at hd
                subst hd
                exact ⟨by linarith [hd0.1], by linarith [hd0.2]⟩
              | succ n =>
                cases n with
                | zero =>
                  simp at hd
                  subst hd
                  constructor
                  · simp only [pow_succ, pow_zero]
                    linarith [hd1.1]
                  · simp only [pow_succ, pow_zero]
                    linarith [hd1.2]
                | succ m => simp at hd
          case _ =>
            have hR : retryWithBackoff attempts jitter 3 1000
                = ⟨Except.ok v2, 3,
                    [1000 * 2 ^ (0 : ℕ) + jitter 0, 1000 * 2 ^ (1 : ℕ) + jitter 1]⟩ := by
              simp [retryWithBackoff, retryRunAux, h0, hr0, h1, hr1, h2]
            rw [hR]
            dsimp only
            refine ⟨by norm_num, by norm_num, by simp [List.range_succ], ?_, by simp [h2], ?_, ?_⟩
            · intro i hi
              have hior : i = 0 ∨ i = 1 := by omega
              rcases hior with h | h <;> subst h
              · exact ⟨e0, h0, hr0⟩
              · exact ⟨e1, h1, hr1⟩
            · intro e he hc
              rw [Except.error.injEq] at he
              subst he
              rw [hr0] at hc
              cases hc
            · intro i d hd
              cases i with
              | zero =>
                simp at hd
                subst hd
                exact ⟨by linarith [hd0.1], by linarith [hd0.2]⟩
              | succ n =>
                cases n with
                | zero =>
                  simp at hd
                  subst hd
                  constructor
                  · simp only [pow_succ, pow_zero]
                    linarith [hd1.1]
                  · simp only [pow_succ, pow_zero]
                    linarith [hd1.2]
                | succ m => simp at hd
      case _ =>
        have hR : retryWithBackoff attempts jitter 3 1000
            = ⟨Except.ok v1, 2, [1000 * 2 ^ (0 : ℕ) + jitter 0]⟩ := by
          simp [retryWithBackoff, retryRunAux, h0, hr0, h1]
        rw [hR]
        dsimp only
        refine ⟨by norm_num, by norm_num, by simp [List.range_succ], ?_, by simp [h1], ?_, ?_⟩
        · intro i hi
          have hiz : i = 0 := by omega
          subst hiz
          exact ⟨e0, h0, hr0⟩
        · intro e he hc
          rw [Except.error.injEq] at he
          subst he
          rw [hr0] at hc
          cases hc
        · intro i d hd
          cases i with
          | zero =>
            simp at hd
            subst hd
            exact ⟨by linarith [hd0.1], by linarith [hd0.2]⟩
          | succ n => simp at hd
  case _ =>
    have hR : retryWithBackoff attempts jitter 3 1000 = ⟨Except.ok v0, 1, []⟩ := by
      simp [retryWithBackoff, retryRunAux, h0]
    rw [hR]
    dsimp only
    refine ⟨by norm_num, by norm_num, by simp, by intro i hi; omega, by simp [h0], ?_, by simp⟩
    intro e he
    exact absurd he (by simp)


/-- Witness for retryWithBackoff_policy at a concrete run: first attempt
fails with a 503 status, second succeeds; jitter is the constant 500. -/
theorem retryWithBackoff_policy_witness :
    (∀ _i : ℕ, (0 : ℚ) ≤ 500 ∧ (500 : ℚ) < 1000) ∧
    1 ≤ (retryWithBackoff
          (fun i => if i = 0 then Except.error ⟨some 503, none⟩ else Except.ok ("done"))
          (fun _ => (500 : ℚ)) 3 1000).attemptsMade :=
  ⟨fun _ => by norm_num,
    (retryWithBackoff_policy
      (fun i => if i = 0 then Except.error ⟨some 503, none⟩ else Except.ok ("done"))
      (fun _ => (500 : ℚ)) (fun _ => by norm_num)).1⟩

/-- The two fallback branches of fallbackScorePayload both carry the
deterministic scorer's result. -/
lemma fallbackScorePayload_base (parsedContent : ParsedContent) (targetKeyword : Option String)
    (previousScore : Option ℤ) :
    (fallbackScorePayload parsedContent targetKeyword previousScore).base =
      calculateSEOScore parsedContent targetKeyword := by
  cases previousScore with
  | none => rfl
  | some p =>
    by_cases hp : p = 0 <;> simp [fallbackScorePayload, hp]

/-- Claim C4: for every valid analysis request whose AI path fails at any
step (the retried remote call surfaces an error, or the response fails to
parse after stripping Markdown code fences), neither route surfaces the
remote error: the score route responds with the deterministic scorer's
result tagged source "fallback" together with a human-readable message,
and the keyword route responds with the deterministic fallback keyword
detection together with fallback true and a message. -/
theorem ai_failure_falls_back {α : Type}
    (parsedContent : ParsedContent) (targetKeyword : Option String) (previousScore : Option ℤ)
    (contentText : String) (aiOutcome : Except JsError String)
    (scoreParse : String → Option α) (kwParse : String → Option (List WeakWord))
    (htitle : parsedContent.title ≠ "")
    (hct1 : contentText ≠ "") (hct2 : contentText.length ≤ 10000)
    (hscorefail : ∀ s, aiOutcome = Except.ok s → scoreParse (stripFences s) = none)
    (hkwfail : ∀ s, aiOutcome = Except.ok s → kwParse (stripFences s) = none) :
    seoScorePOST (some parsedContent) targetKeyword previousScore aiOutcome scoreParse =
      ScoreResponse.fallbackResult (fallbackScorePayload parsedContent targetKeyword previousScore)
        ("AI analysis temporarily unavailable. Using basic SEO scoring.") ∧
    (fallbackScorePayload parsedContent targetKeyword previousScore).base =
      calculateSEOScore parsedContent targetKeyword ∧
    seoKeywordsPOST (some contentText) aiOutcome kwParse =
      KeywordResponse.ok (getFallbackKeywords contentText) true
        (some ("AI service temporarily unavailable. Using basic keyword detection.")) := by
  have h10 : ¬ (contentText.length > 10000) := by omega
  refine ⟨?_, fallbackScorePayload_base parsedContent targetKeyword previousScore, ?_⟩
  · cases haio : aiOutcome with
    | error e => simp [seoScorePOST, htitle]
    | ok s =>
      have hp := hscorefail s haio
      simp [seoScorePOST, htitle, hp]
  · cases haio : aiOutcome with
    | error e => simp [seoKeywordsPOST, hct1, h10]
    | ok s =>
      have hp := hkwfail s haio
      simp [seoKeywordsPOST, hct1, h10, hp]

/-- Witness for ai_failure_falls_back: a non-overload error ("invalid API
key") on a valid request makes the keyword route answer with the
fallback keyword detection, fallback true and the message. -/
theorem ai_failure_falls_back_witness :
    seoKeywordsPOST (some ("hello world"))
        (Except.error ⟨none, some ("invalid API key")⟩) (fun _ => none) =
      KeywordResponse.ok (getFallbackKeywords ("hello world")) true
        (some ("AI service temporarily unavailable. Using basic keyword detection.")) :=
  (@ai_failure_falls_back Unit ⟨"T", "", []⟩ none none ("hello world")
    (Except.error ⟨none, some ("invalid API key")⟩) (fun _ => none) (fun _ => none)
    (by decide) (by decide) (by decide)
    (by intro s h; simp at h) (by intro s h; simp at h)).2.2

/-- Claim C10 (counterexample): in the score route's fallback path with no
previousScore supplied, the response still populates previousScore (with
0) and improvement (with "First analysis"), so the fields are not
populated only when a prior score was supplied. -/
theorem previousScore_populated_without_prior :
    @seoScorePOST Unit (some ⟨"T", "", []⟩) none none
        (Except.error ⟨none, some ("boom")⟩) (fun _ => none) =
      ScoreResponse.fallbackResult
        ⟨calculateSEOScore ⟨"T", "", []⟩ none, 0, ("First analysis")⟩
        ("AI analysis temporarily unavailable. Using basic SEO scoring.") := by
  simp [seoScorePOST, fallbackScorePayload]

/-- Claim C10 (amended): the fallback score payload always populates
previousScore and improvement.  When a truthy (non-zero) prior score p is
supplied, improvement equals overall minus p rendered as
"+{d} points better" when positive, "{d} points worse" when negative and
"No change" when zero; when no prior score is supplied (or it is 0, which
is falsy in JS), previousScore is set to 0 and improvement to
"First analysis". -/
theorem fallback_improvement_fields (parsedContent : ParsedContent)
    (targetKeyword : Option String) (p : ℤ) (hp : p ≠ 0) :
    fallbackScorePayload parsedContent targetKeyword (some p) =
      ⟨calculateSEOScore parsedContent targetKeyword, p,
        renderImprovement ((calculateSEOScore parsedContent targetKeyword).overall - p)⟩ ∧
    fallbackScorePayload parsedContent targetKeyword none =
      ⟨calculateSEOScore parsedContent targetKeyword, 0, ("First analysis")⟩ ∧
    fallbackScorePayload parsedContent targetKeyword (some 0) =
      ⟨calculateSEOScore parsedContent targetKeyword, 0, ("First analysis")⟩ ∧
    (∀ d : ℤ, 0 < d →
      renderImprovement d = ("+" : String) ++ toString d ++ " points better") ∧
    (∀ d : ℤ, d < 0 → renderImprovement d = toString d ++ (" points worse" : String)) ∧
    renderImprovement 0 = ("No change" : String) := by
  refine ⟨by simp [fallbackScorePayload, hp], rfl, by simp [fallbackScorePayload], ?_, ?_,
    by simp [renderImprovement]⟩
  · intro d hd
    simp [renderImprovement, hd]
  · intro d hd
    have hd2 : ¬ (0 < d) := by omega
    simp [renderImprovement, hd, hd2]

/-- Witness for fallback_improvement_fields at prior score 5. -/
theorem fallback_improvement_fields_witness :
    renderImprovement 0 = ("No change" : String) :=
  (fallback_improvement_fields ⟨"T", "", []⟩ none 5 (by decide)).2.2.2.2.2

lemma matchesAt_lt {text pat : List Char} {i : ℕ} (hp : pat ≠ [])
    (h : matchesAt text pat i = true) : i < text.length := by
  by_contra hc
  push_neg at hc
  have hdrop : text.drop i = [] := List.drop_eq_nil_of_le hc
  unfold matchesAt at h
  rw [hdrop] at h
  cases pat with
  | nil => exact hp rfl
  | cons c cs => simp [List.isPrefixOf] at h

lemma jsIndexOfAux_some {text pat : List Char} {fuel j k : ℕ}
    (h : jsIndexOfAux text pat fuel j = some k) :
    j ≤ k ∧ matchesAt text pat k = true ∧
      ∀ i, j ≤ i → i < k → matchesAt text pat i = false := by
  induction fuel generalizing j with
  | zero => simp [jsIndexOfAux] at h
  | succ n ih =>
    rw [jsIndexOfAux] at h
    by_cases hm : matchesAt text pat j = true
    · rw [if_pos hm] at h
      rw [Option.some.injEq] at h
      subst h
      exact ⟨le_refl j, hm, fun i h1 h2 => absurd h1 (by omega)⟩
    · rw [if_neg hm] at h
      have hrec := ih h
      refine ⟨by omega, hrec.2.1, ?_⟩
      intro i h1 h2
      by_cases hij : i = j
      · subst hij
        simpa using hm
      · exact hrec.2.2 i (by omega) h2

lemma jsIndexOfAux_none {text pat : List Char} {fuel j : ℕ}
    (h : jsIndexOfAux text pat fuel j = none) :
    ∀ i, j ≤ i → i < j + fuel → matchesAt text pat i = false := by
  induction fuel generalizing j with
  | zero => intro i h1 h2; omega
  | succ n ih =>
    rw [jsIndexOfAux] at h
    by_cases hm : matchesAt text pat j = true
    · rw [if_pos hm] at h
      cases h
    · rw [if_neg hm] at h
      intro i h1 h2
      by_cases hij : i = j
      · subst hij
        simpa using hm
      · exact ih h i (by omega) (by omega)

lemma jsIndexOfFrom_some {text pat : List Char} {start k : ℕ}
    (h : jsIndexOfFrom text pat start = some k) :
    min start text.length ≤ k ∧ matchesAt text pat k = true ∧
      ∀ i, min start text.length ≤ i → i < k → matchesAt text pat i = false :=
  jsIndexOfAux_some h

lemma jsIndexOfFrom_none {text pat : List Char} {start : ℕ}
    (h : jsIndexOfFrom text pat start = none) :
    ∀ i, min start text.length ≤ i → i ≤ text.length → matchesAt text pat i = false := by
  intro i h1 h2
  have hmin : min start text.length ≤ text.length := min_le_right _ _
  exact jsIndexOfAux_none h i h1 (by omega)

lemma scanFromF_mem {text pat : List Char} (hp : pat ≠ []) :
    ∀ fuel start j, text.length + 1 ≤ fuel + start → start ≤ text.length →
      (j ∈ scanFromF text pat fuel start ↔ start ≤ j ∧ matchesAt text pat j = true) := by
  intro fuel
  induction fuel with
  | zero =>
    intro start j hf hs
    omega
  | succ n ih =>
    intro start j hf hs
    rw [scanFromF]
    have hmin : min start text.length = start := min_eq_left hs
    cases hfind : jsIndexOfFrom text pat start with
    | none =>
      simp only [List.not_mem_nil, false_iff]
      rintro ⟨hsj, hmj⟩
      have hjlt : j < text.length := matchesAt_lt hp hmj
      have := jsIndexOfFrom_none hfind j (by omega) (by omega)
      rw [this] at hmj
      cases hmj
    | some k =>
      have hk := jsIndexOfFrom_some hfind
      rw [hmin] at hk
      have hkstart : start ≤ k := hk.1
      have hkmatch : matchesAt text pat k = true := hk.2.1
      have hklt : k < text.length := matchesAt_lt hp hkmatch
      have hrec := ih (k + 1) j (by omega) (by omega)
      simp only [List.mem_cons]
      constructor
      · rintro (rfl | hj)
        · exact ⟨hkstart, hkmatch⟩
        · have hj2 := hrec.mp hj
          exact ⟨by omega, hj2.2⟩
      · rintro ⟨hsj, hmj⟩
        by_cases hjk : j = k
        · exact Or.inl hjk
        · refine Or.inr (hrec.mpr ⟨?_, hmj⟩)
          by_contra hlt
          push_neg at hlt
          have hjltk : j < k := by omega
          have := hk.2.2 j (by omega) hjltk
          rw [this] at hmj
          cases hmj

lemma scanMatches_mem {text pat : List Char} (hp : pat ≠ []) (j : ℕ) :
    j ∈ scanMatches text pat ↔ matchesAt text pat j = true := by
  unfold scanMatches
  rw [scanFromF_mem hp (text.length + 1) 0 j (by omega) (by omega)]
  simp

/-- Claim C5: an index is emitted as a highlight match for a text node
exactly when the (non-empty) search term occurs there and the characters
immediately before and after the occurrence (a virtual space at node
edges) are both non-word; the advance-by-one scan misses no occurrence
(the iff gives completeness over all indices, and the "aaa"/"aa" example
shows overlapping occurrences [0, 1] are both found, which resuming past
the full match would miss); on the node text "category cat catalog" with
keyword "cat" exactly the standalone occurrence at index 9 is emitted. -/
theorem highlightMatches_spec :
    (∀ text pat, pat ≠ [] → ∀ j,
      (j ∈ highlightMatches text pat ↔
        matchesAt text pat j = true ∧ boundaryOk text pat j = true)) ∧
    highlightKeywordNode ("category cat catalog") ("cat") = [9] ∧
    scanMatches (("aaa" : String)).toList (("aa" : String)).toList = [0, 1] := by
  refine ⟨?_, by decide, by decide⟩
  intro text pat hp j
  unfold highlightMatches
  rw [List.mem_filter]
  rw [scanMatches_mem hp j]

/-- Witness for highlightMatches_spec: the match of "cat" at index 0 of
"cat dog" is emitted, hence occurs with non-word boundaries. -/
theorem highlightMatches_spec_witness :
    matchesAt (("cat dog" : String)).toList (("cat" : String)).toList 0 = true ∧
    boundaryOk (("cat dog" : String)).toList (("cat" : String)).toList 0 = true :=
  (highlightMatches_spec.1 (("cat dog" : String)).toList (("cat" : String)).toList
    (by decide) 0).mp (by decide)

/-- Claim C8: every range the localizer actually marks satisfies
0 <= from < to <= documentLength, and a computed range is marked exactly
when it passes that guard — any computed range violating the bounds is
silently dropped (absent from the applied list; the embedding is total,
so no error is raised or propagated). -/
theorem appliedRanges_valid (docSize pos : ℤ) (nodeText keyword : String) :
    (∀ r ∈ appliedRanges docSize pos nodeText keyword,
      0 ≤ r.1 ∧ r.1 < r.2 ∧ r.2 ≤ docSize) ∧
    (∀ r, r ∈ appliedRanges docSize pos nodeText keyword ↔
      (r ∈ candidateRanges pos nodeText keyword ∧ 0 ≤ r.1 ∧ r.2 ≤ docSize ∧ r.1 < r.2)) := by
  have hiff : ∀ r : ℤ × ℤ,
      ((decide (0 ≤ r.1) && decide (r.2 ≤ docSize) && decide (r.1 < r.2)) = true) ↔
        (0 ≤ r.1 ∧ r.2 ≤ docSize ∧ r.1 < r.2) := by
    intro r
    simp [Bool.and_eq_true, decide_eq_true_iff, and_assoc]
  constructor
  · intro r hr
    rw [appliedRanges, List.mem_filter] at hr
    have h2 := (hiff r).mp hr.2
    exact ⟨h2.1, h2.2.2, h2.2.1⟩
  · intro r
    rw [appliedRanges, List.mem_filter]
    rw [hiff r]

/-- Witness for appliedRanges_valid: the single mark for keyword "cat" in
node text "good cat" at base position 0 in a size-100 document is the
range (5, 8), which satisfies the bounds. -/
theorem appliedRanges_valid_witness :
    (0 : ℤ) ≤ 5 ∧ (5 : ℤ) < 8 ∧ (8 : ℤ) ≤ 100 :=
  (appliedRanges_valid 100 0 ("good cat") ("cat")).1 (5, 8) (by decide)

/-- Claim C6: for a truthy target keyword, the keyword metric's score
awards the density bonus exactly by: plus 40 when density (occurrences
divided by word count times 100) lies in [1, 3], plus 20 when density
exceeds 3, plus 0 when below 1 (besides the independent title and heading
bonuses); for the 9-word text "the quick fox the quick fox the quick fox"
with keyword "fox" (3 occurrences), density is 100/3 = 33.3..%, which is
outside [1, 3] and greater than 3, so the too-high (+20) branch is taken,
not the good (+40) branch, and the metric scores 20. -/
theorem keyword_density_branches :
    (∀ text content kw, ¬ kw = "" →
      (analyzeKeywordOptimization text content (some kw)).score =
        (if strIncludes (toLowerList content.title.toList) (toLowerList kw.toList) = true then 30
          else 0) +
        ((if densityJS text (toLowerList kw.toList) ≥ 1 ∧ densityJS text (toLowerList kw.toList) ≤ 3
            then 40
          else if densityJS text (toLowerList kw.toList) > 3 then 20 else 0) +
         (if (content.content.filter
                (fun b => b.type = BlockType.heading ∨ b.type = BlockType.subheading)).any
              (fun b => strIncludes (toLowerList b.content.toList) (toLowerList kw.toList)) = true
            then 30 else 0))) ∧
    densityJS (("the quick fox the quick fox the quick fox" : String)).toList
      (toLowerList (("fox" : String)).toList) = 100 / 3 ∧
    ¬ (((100 : ℚ) / 3) ≥ 1 ∧ ((100 : ℚ) / 3) ≤ 3) ∧ ((100 : ℚ) / 3) > 3 ∧
    (analyzeKeywordOptimization (("the quick fox the quick fox the quick fox" : String)).toList
        ⟨"My document", "",
          [⟨"1", BlockType.paragraph, "the quick fox the quick fox the quick fox", none⟩]⟩
        (some ("fox"))).score = 20 := by
  have hocc : countOccurrences
      (toLowerList (("the quick fox the quick fox the quick fox" : String)).toList)
      (toLowerList (("fox" : String)).toList) = 3 := by decide
  have hwc : wordCountJS (("the quick fox the quick fox the quick fox" : String)).toList = 9 := by
    decide
  have hd : densityJS (("the quick fox the quick fox the quick fox" : String)).toList
      (toLowerList (("fox" : String)).toList) = 100 / 3 := by
    simp only [densityJS, hocc, hwc]
    norm_num
  refine ⟨kwOptScore, hd, by norm_num, by norm_num, ?_⟩
  rw [kwOptScore _ _ _ (by decide)]
  have h1 : strIncludes (toLowerList (("My document" : String)).toList)
      (toLowerList (("fox" : String)).toList) = false := by decide
  have h2 : ([(⟨"1", BlockType.paragraph, "the quick fox the quick fox the quick fox",
      none⟩ : ContentBlock)].filter
        (fun b => b.type = BlockType.heading ∨ b.type = BlockType.subheading)).any
      (fun b => strIncludes (toLowerList b.content.toList)
        (toLowerList (("fox" : String)).toList)) = false := by decide
  dsimp only
  rw [hd, h1, h2]
  norm_num

/-- Witness for keyword_density_branches applied at the empty text and
keyword "x". -/
theorem keyword_density_branches_witness :
    (analyzeKeywordOptimization ([]) ⟨"", "", []⟩ (some ("x"))).score =
      (if strIncludes (toLowerList (("" : String)).toList)
          (toLowerList (("x" : String)).toList) = true then 30 else 0) +
      ((if densityJS ([]) (toLowerList (("x" : String)).toList) ≥ 1 ∧
            densityJS ([]) (toLowerList (("x" : String)).toList) ≤ 3 then 40
        else if densityJS ([]) (toLowerList (("x" : String)).toList) > 3 then 20 else 0) +
       (if (([] : List ContentBlock).filter
              (fun b => b.type = BlockType.heading ∨ b.type = BlockType.subheading)).any
            (fun b => strIncludes (toLowerList b.content.toList)
              (toLowerList (("x" : String)).toList)) = true then 30 else 0)) :=
  keyword_density_branches.1 ([]) ⟨"", "", []⟩ ("x") (by decide)

lemma rd_empty : analyzeReadability ([]) =
    ⟨0, MetricStatus.poor,
      ["Improve readability: -Infinity (aim for 60+)", "Shorten sentences for better readability",
       "Add transition words to improve flow"], 0.2⟩ := by rfl

lemma st_empty : analyzeStructure ⟨"", "", []⟩ =
    ⟨0, MetricStatus.poor,
      ["Add a title", "Add a meta description", "Add more headings to structure content",
       "Break content into more paragraphs"], 0.15⟩ := by rfl

lemma md_empty : analyzeMetaData ⟨"", "", []⟩ =
    ⟨0, MetricStatus.poor,
      ["Title too short: 0 chars (min 30)", "Add a meta description"], 0.1⟩ := by rfl

lemma cq_empty : analyzeContentQuality ([]) ([]) =
    ⟨25, MetricStatus.poor,
      ["Content too short: 1 words (recommended: 300+)", "Paragraphs too short",
       "Improve sentence length variety", "Good vocabulary variety"], 0.25⟩ := by
  have e1 : wordCountJS ([]) = 1 := by decide
  have e2 : sentencesJS ([]) = ([] : List (List Char)) := by decide
  have e3 : (jsSplitClass isWSChar (toLowerList ([] : List Char))).dedup.length = 1 := by decide
  norm_num [analyzeContentQuality, e1, e2, e3, getStatus]
  decide

lemma kw_empty : analyzeKeywordOptimization ([]) ⟨"", "", []⟩ (some ("x")) =
    ⟨0, MetricStatus.poor,
      ["Add keyword to title", "Keyword density too low: 0.0% (aim for 1-3%)",
       "Add keyword to at least one heading"], 0.3⟩ := by
  have hocc : countOccurrences (toLowerList ([] : List Char))
      (toLowerList (("x" : String)).toList) = 0 := by decide
  have hwc : wordCountJS ([]) = 1 := by decide
  have hd : densityJS ([]) (toLowerList (("x" : String)).toList) = 0 := by
    simp only [densityJS, hocc, hwc]
    norm_num
  have ht : strIncludes (toLowerList (("" : String)).toList)
      (toLowerList (("x" : String)).toList) = false := by decide
  have hh : (([] : List ContentBlock).filter
      (fun b => b.type = BlockType.heading ∨ b.type = BlockType.subheading)).any
      (fun b => strIncludes (toLowerList b.content.toList)
        (toLowerList (("x" : String)).toList)) = false := by decide
  have hk : kwFalsy (some ("x")) = false := by decide
  have hfix : qToFixed1 (0 : ℚ) = "0.0" := by
    norm_num [qToFixed1, jsRound]
    decide
  simp only [analyzeKeywordOptimization, hk, Bool.false_eq_true, if_false, Option.getD]
  dsimp only
  simp only [hd, ht, hh]
  norm_num [getStatus, hfix]
  decide

/-- Claim C7: the recommendations list is exactly the detail strings of
the metrics whose status is poor or needs-improvement, with every detail
containing a literal colon excluded, in the fixed metric order
contentQuality, keywordOptimization, readability, structure, metaData,
truncated to at most 5; and the empty document with keyword "x", which
fails all five metrics, yields exactly 5 recommendation strings, drawn in
that order. -/
theorem recommendations_pipeline :
    (∀ b : SEOBreakdown,
      generateRecommendations b =
        ((breakdownEntries b).bind (fun m =>
          if m.status = MetricStatus.poor ∨ m.status = MetricStatus.needsImprovement then
            m.details.filter (fun d => !(hasColon d))
          else [])).take 5) ∧
    (breakdownEntries (calculateSEOScore ⟨"", "", []⟩ (some ("x"))).breakdown).map
        (fun m => m.status) =
      [MetricStatus.poor, MetricStatus.poor, MetricStatus.poor, MetricStatus.poor,
        MetricStatus.poor] ∧
    (calculateSEOScore ⟨"", "", []⟩ (some ("x"))).recommendations =
      ["Paragraphs too short", "Improve sentence length variety", "Good vocabulary variety",
       "Add keyword to title", "Add keyword to at least one heading"] ∧
    (calculateSEOScore ⟨"", "", []⟩ (some ("x"))).recommendations.length = 5 := by
  have hb : (calculateSEOScore ⟨"", "", []⟩ (some ("x"))).breakdown =
      ⟨⟨25, MetricStatus.poor,
          ["Content too short: 1 words (recommended: 300+)", "Paragraphs too short",
           "Improve sentence length variety", "Good vocabulary variety"], 0.25⟩,
        ⟨0, MetricStatus.poor,
          ["Add keyword to title", "Keyword density too low: 0.0% (aim for 1-3%)",
           "Add keyword to at least one heading"], 0.3⟩,
        ⟨0, MetricStatus.poor,
          ["Improve readability: -Infinity (aim for 60+)",
           "Shorten sentences for better readability",
           "Add transition words to improve flow"], 0.2⟩,
        ⟨0, MetricStatus.poor,
          ["Add a title", "Add a meta description", "Add more headings to structure content",
           "Break content into more paragraphs"], 0.15⟩,
        ⟨0, MetricStatus.poor,
          ["Title too short: 0 chars (min 30)", "Add a meta description"], 0.1⟩⟩ := by
    calc (calculateSEOScore ⟨"", "", []⟩ (some ("x"))).breakdown
        = ⟨analyzeContentQuality ([]) ([]),
            analyzeKeywordOptimization ([]) ⟨"", "", []⟩ (some ("x")),
            analyzeReadability ([]), analyzeStructure ⟨"", "", []⟩,
            analyzeMetaData ⟨"", "", []⟩⟩ := rfl
      _ = _ := by rw [cq_empty, kw_empty, rd_empty, st_empty, md_empty]
  have hrec : (calculateSEOScore ⟨"", "", []⟩ (some ("x"))).recommendations
      = generateRecommendations (calculateSEOScore ⟨"", "", []⟩ (some ("x"))).breakdown := rfl
  refine ⟨?_, ?_, ?_, ?_⟩
  · intro b
    simp only [generateRecommendations, breakdownEntries, List.foldl, List.bind, List.map,
      List.join, List.nil_append, List.append_nil, List.append_assoc]
    split_ifs <;> simp [*, List.append_assoc]
  · rw [hb]
    decide
  · rw [hrec, hb]
    decide
  · rw [hrec, hb]
    decide

/-- Claim C9 (counterexample): the scorer's word count for the empty
document is 1, not 0 (JS "".split on whitespace yields one empty token),
and for a whitespace-only document it is 2; moreover the contentQuality
metric of the empty document scores 25, not a floor value, because the
vocabulary-variety bonus fires on the single empty token. -/
theorem empty_doc_wordcount_counterexample :
    wordCountJS (textOfContent ⟨"", "", []⟩) = 1 ∧
    wordCountJS ((" " : String)).toList = 2 ∧
    (sentencesJS (textOfContent ⟨"", "", []⟩)).length = 0 ∧
    (analyzeContentQuality (textOfContent ⟨"", "", []⟩) ([])).score = 25 := by
  have htext : textOfContent ⟨"", "", []⟩ = ([]) := by decide
  refine ⟨by decide, by decide, by decide, ?_⟩
  rw [htext, cq_empty]

/-- Claim C9 (amended): for the empty document the scorer's word-token
count is 1 (JS split of the empty string yields one empty token; a
whitespace-only document yields 2) and the sentence count is 0; no crash
occurs: the guarded averages default to 0 and the readability bonuses
tied to sentence counts are not awarded when the sentence count is 0 (in
the source the division by zero yields IEEE Infinity, which fails both
comparisons); every metric of the empty document lands in a failing band:
contentQuality has status poor (score 25, from the vocabulary-variety
bonus on the single empty token), readability poor (score 0), structure
and metaData poor, and the keyword metric without a keyword is the
needs-improvement sentinel. -/
theorem empty_doc_lowest_band :
    wordCountJS (textOfContent ⟨"", "", []⟩) = 1 ∧
    (sentencesJS (textOfContent ⟨"", "", []⟩)).length = 0 ∧
    wordCountJS ((" " : String)).toList = 2 ∧
    (analyzeContentQuality ([]) ([])).status = MetricStatus.poor ∧
    (analyzeContentQuality ([]) ([])).score = 25 ∧
    (analyzeReadability ([])).status = MetricStatus.poor ∧
    (analyzeReadability ([])).score = 0 ∧
    (analyzeStructure ⟨"", "", []⟩).status = MetricStatus.poor ∧
    (analyzeMetaData ⟨"", "", []⟩).status = MetricStatus.poor ∧
    (analyzeKeywordOptimization ([]) ⟨"", "", []⟩ none).status
      = MetricStatus.needsImprovement := by
  refine ⟨by decide, by decide, by decide, ?_, ?_, rfl, rfl, rfl, rfl, rfl⟩
  · rw [cq_empty]
  · rw [cq_empty]
